import Mathlib

/-!
Verification of the `descriptify` library: a shallow embedding of
`descriptify/data_descriptors.py` and `descriptify/non_data_descriptors.py`
into Lean 4, with theorems settling the behavioural claims about the
descriptor (attribute-interceptor) classes.

Modelling conventions:
- Python objects relevant to the claims are `PyObj`: an opaque value
  (`base n`), the value `None` (`pynone`), or a `Reference` named tuple
  (`ref w v` pairs the identity `w` of a `weakref.ref` object with the
  stored value `v`).
- Exceptions are values of `Err`; fallible operations return `Except Err _`.
- Instances are tagged by `Nat`; `pyid` models Python `id` restricted to
  the objects that occur (`None` and instances): distinct live objects have
  distinct ids.
- A descriptor's per-attribute storage (`instance.__dict__[name]` slots for
  the direct-storage classes, the `_references` dict for the slottable
  classes) is an association list `Store` passed explicitly; mutating
  methods return the new store, so an unchanged store on error is explicit.
- `__get__` returning `self` is the `GetResult.itself` constructor;
  returning a value `v` is `GetResult.value v`.
-/

namespace Descriptify

/-- Python values occurring in the claims: `None`, opaque user values tagged
by a `Nat`, and `Reference` named tuples (`data_descriptors.Reference`),
which pair a weak reference (identified by a `Nat` tag, since `weakref.ref`
objects are compared by identity) with a stored value. -/
inductive PyObj : Type where
  | pynone : PyObj
  | base : Nat → PyObj
  | ref : Nat → PyObj → PyObj
deriving DecidableEq, Repr

/-- Python exceptions surfaced by the embedded code: `AttributeError`
(constructed with its tuple of string arguments), `KeyError`, and opaque
user exceptions raised by configured actions, tagged by a `Nat`. -/
inductive Err : Type where
  | attributeError : List String → Err
  | keyError : Nat → Err
  | user : Nat → Err
deriving DecidableEq, Repr

/-- The f-string rendering of an instance, as in `f"{instance}..."`. -/
def instRepr (i : Nat) : String := "<instance " ++ toString i ++ ">"

/-- The message used by the unset-read `AttributeError` in the source. -/
def unsetMsg : String := "has not been set with a value"

/-- Python `id` on the objects the model tracks: instances (`some i`) get
the nonzero id `i + 1`; `id(None)` is the distinct id `0`. Distinct live
objects have distinct ids. -/
def pyid : Option Nat → Nat
  | none => 0
  | some i => i + 1

/-- A dict keyed by `Nat` (an instance id) with `PyObj` values: the
per-attribute slots of instance `__dict__`s for direct storage, and the
`_references` table for slottable storage. -/
abbrev Store := List (Nat × PyObj)

/-- Dict lookup: `d[k]` / `d.get(k)`. -/
def lookupStore : Store → Nat → Option PyObj
  | [], _ => none
  | (k, v) :: rest, k2 => if k = k2 then some v else lookupStore rest k2

/-- Dict assignment `d[k] = v`: replaces in place, else appends. -/
def insertStore : Store → Nat → PyObj → Store
  | [], k, v => [(k, v)]
  | (k2, v2) :: rest, k, v =>
      if k2 = k then (k, v) :: rest else (k2, v2) :: insertStore rest k v

/-- Dict membership `k in d`. -/
def containsKey (st : Store) (k : Nat) : Bool := (lookupStore st k).isSome

/-- Removal of key `k` from the dict (keys are unique in real dicts). -/
def eraseKey (st : Store) (k : Nat) : Store := st.filter (fun p => p.1 != k)

/-- Python `del d[k]`: raises `KeyError` when `k` is absent. -/
def delItem (st : Store) (k : Nat) : Except Err Store :=
  if containsKey st k then .ok (eraseKey st k) else .error (.keyError k)

/-- Result of a `__get__` call: the descriptor returned itself (`return
self`), or it returned a value. -/
inductive GetResult : Type where
  | itself : GetResult
  | value : PyObj → GetResult
deriving DecidableEq, Repr

/-- Does Python `isinstance(x, Reference)` hold? -/
def isRefObj : PyObj → Bool
  | .ref _ _ => true
  | _ => false

/-- The `reference` field of a `Reference`; attribute access
`x.reference` raises `AttributeError` on non-`Reference` objects. -/
def refRefAttr : PyObj → Except Err Nat
  | .ref w _ => .ok w
  | _ => .error (.attributeError ["object has no attribute reference"])

/-- The `value` field of a `Reference`; attribute access `x.value` raises
`AttributeError` on non-`Reference` objects. -/
def refValueAttr : PyObj → Except Err PyObj
  | .ref _ v => .ok v
  | _ => .error (.attributeError ["object has no attribute value"])

/-- `BaseDataDescriptor`: direct storage in the instance `__dict__` under
`_property_name` (captured by `__set_name__`). -/
structure BaseDataDescriptor : Type where
  propertyName : String

/-- `BaseDataDescriptor.__set__`:
`instance.__dict__[self._property_name] = value`. -/
def BaseDataDescriptor.set (_d : BaseDataDescriptor) (inst : Nat) (v : PyObj)
    (st : Store) : Store :=
  insertStore st inst v

/-- `BaseDataDescriptor.__get__`: returns self when `instance is None`;
otherwise returns the stored value, or raises `AttributeError(
f"{instance}.{self._property_name}", "has not been set with a value")`. -/
def BaseDataDescriptor.get (d : BaseDataDescriptor) (inst : Option Nat)
    (st : Store) : Except Err GetResult :=
  match inst with
  | none => .ok .itself
  | some i =>
    match lookupStore st i with
    | some v => .ok (.value v)
    | none =>
        .error (.attributeError [instRepr i ++ "." ++ d.propertyName, unsetMsg])

/-- `DefaultDataDescriptor`: adds `default` (`none` models the
`NO_DEFAULT_VALUE` sentinel, compared by identity in the source). -/
structure DefaultDataDescriptor : Type where
  propertyName : String
  default : Option PyObj

def DefaultDataDescriptor.toBase (d : DefaultDataDescriptor) :
    BaseDataDescriptor :=
  ⟨d.propertyName⟩

/-- `DefaultDataDescriptor.__get__`: with the sentinel default it delegates
to `BaseDataDescriptor.__get__`; otherwise it evaluates
`instance.__dict__.get(self._property_name, _default)` — note that when
`instance` is `None` this path touches `None.__dict__`, which raises
`AttributeError` (there is no `instance is None` check on this branch). -/
def DefaultDataDescriptor.get (d : DefaultDataDescriptor) (inst : Option Nat)
    (st : Store) : Except Err GetResult :=
  match d.default with
  | none => BaseDataDescriptor.get d.toBase inst st
  | some dflt =>
    match inst with
    | none => .error (.attributeError ["NoneType object has no attribute __dict__"])
    | some i => .ok (.value ((lookupStore st i).getD dflt))

/-- `DefaultDataDescriptor.__set__` is inherited from
`BaseDataDescriptor`. -/
def DefaultDataDescriptor.set (d : DefaultDataDescriptor) (inst : Nat)
    (v : PyObj) (st : Store) : Store :=
  BaseDataDescriptor.set d.toBase inst v st

/-- `BaseSlottableDataDescriptor`: external storage in the descriptor-owned
`_references` dict, keyed by `id(instance)`. -/
structure BaseSlottableDataDescriptor : Type where
  propertyName : String

/-- `BaseSlottableDataDescriptor.__set__`: builds
`Reference(weakref.ref(instance, self._delete_reference), value)` and
stores it at key `id(instance)`. The identity `wr` of the freshly created
weak reference is supplied by the runtime. -/
def BaseSlottableDataDescriptor.set (_d : BaseSlottableDataDescriptor)
    (inst : Nat) (wr : Nat) (v : PyObj) (tbl : Store) : Store :=
  insertStore tbl (pyid (some inst)) (.ref wr v)

/-- `BaseSlottableDataDescriptor.__get__`: returns self when `instance is
None`; otherwise reads `self._references[id(instance)]` (a `KeyError`
becomes the unset-read `AttributeError`) and returns its `value` field. -/
def BaseSlottableDataDescriptor.get (d : BaseSlottableDataDescriptor)
    (inst : Option Nat) (tbl : Store) : Except Err GetResult :=
  match inst with
  | none => .ok .itself
  | some i =>
    match lookupStore tbl (pyid (some i)) with
    | none =>
        .error (.attributeError [instRepr i ++ "." ++ d.propertyName, unsetMsg])
    | some r =>
      match refValueAttr r with
      | .ok v => .ok (.value v)
      | .error e => .error e

/-- `BaseSlottableDataDescriptor._find_weak_ref_key`: scans the table in
order and returns the first key whose entry's `reference` field is the
given weak reference (identity comparison); returns `None` when no entry
matches. -/
def findWeakRefKey : Store → Nat → Except Err (Option Nat)
  | [], _ => .ok none
  | (k, r) :: rest, wr =>
    match refRefAttr r with
    | .error e => .error e
    | .ok w => if w = wr then .ok (some k) else findWeakRefKey rest wr

/-- `BaseSlottableDataDescriptor._delete_reference`: the weak-reference
reclamation callback. Looks up the matching key and deletes it only when
the key is truthy (`if key:` — skipped when the search returned `None` and
also when the matching key is the falsy int `0`). -/
def deleteReference (tbl : Store) (wr : Nat) : Except Err Store :=
  match findWeakRefKey tbl wr with
  | .error e => .error e
  | .ok none => .ok tbl
  | .ok (some k) => if k = 0 then .ok tbl else delItem tbl k

/-- `SlottableDefaultDataDescriptor`: slottable storage plus a default
(`none` models the `NO_DEFAULT_VALUE` sentinel). -/
structure SlottableDefaultDataDescriptor : Type where
  propertyName : String
  default : Option PyObj

def SlottableDefaultDataDescriptor.toBase (d : SlottableDefaultDataDescriptor) :
    BaseSlottableDataDescriptor :=
  ⟨d.propertyName⟩

/-- `SlottableDefaultDataDescriptor.__get__`: with the sentinel default
delegates to `BaseSlottableDataDescriptor.__get__`; otherwise evaluates
`value_or_reference = self._references.get(id(instance), _default)` and
discriminates the result with `isinstance(value_or_reference, Reference)`,
returning the `value` field for a `Reference` and the object itself
otherwise. There is no `instance is None` check on the non-sentinel
branch: `id(instance)` is then `id(None)`. -/
def SlottableDefaultDataDescriptor.get (d : SlottableDefaultDataDescriptor)
    (inst : Option Nat) (tbl : Store) : Except Err GetResult :=
  match d.default with
  | none => BaseSlottableDataDescriptor.get d.toBase inst tbl
  | some dflt =>
    let valueOrReference : PyObj := (lookupStore tbl (pyid inst)).getD dflt
    match valueOrReference with
    | .ref _ v => .ok (.value v)
    | other => .ok (.value other)

/-- `__set__` is inherited from `BaseSlottableDataDescriptor`. -/
def SlottableDefaultDataDescriptor.set (d : SlottableDefaultDataDescriptor)
    (inst : Nat) (wr : Nat) (v : PyObj) (tbl : Store) : Store :=
  BaseSlottableDataDescriptor.set d.toBase inst wr v tbl

/-- An invariant check (`ImmutableAction`): called for effect, may raise. -/
abbrev Check := PyObj → Except Err Unit

/-- A transform (`Action`): maps the value, may raise. -/
abbrev Action := PyObj → Except Err PyObj

/-- `_run_immutable_actions` (identical in `ActionsDescriptor` and
`SlottableActionsDescriptor`): calls each configured check on `value` —
the loop never rebinds `value`, so every call receives the original
argument. Instrumented with the list of arguments passed, in call order;
an exception stops the loop and propagates. -/
def runImmutableActions (checks : List Check) (value : PyObj) :
    List PyObj × Except Err Unit :=
  match checks with
  | [] => ([], .ok ())
  | c :: cs =>
    match c value with
    | .error e => ([value], .error e)
    | .ok _ =>
      let r := runImmutableActions cs value
      (value :: r.1, r.2)

/-- `_run_actions` (identical in both Actions classes): threads `value`
through each configured transform (`value = action(value)`). Instrumented
with the list of arguments passed, in call order; an exception stops the
loop and propagates. -/
def runActions (acts : List Action) (value : PyObj) :
    List PyObj × Except Err PyObj :=
  match acts with
  | [] => ([], .ok value)
  | a :: rest =>
    match a value with
    | .error e => ([value], .error e)
    | .ok v2 =>
      let r := runActions rest v2
      (value :: r.1, r.2)

/-- Observable outcome of an Actions `__set__`: which arguments each
pipeline stage was called with, the resulting storage, and the normal or
exceptional result. -/
structure SetResult : Type where
  checkCalls : List PyObj
  transformCalls : List PyObj
  store : Store
  result : Except Err Unit

/-- `ActionsDescriptor`: direct-storage default descriptor plus the two
(already normalized) pipelines. -/
structure ActionsDescriptor : Type where
  propertyName : String
  default : Option PyObj
  immutableActions : List Check
  actions : List Action

def ActionsDescriptor.toDefault (d : ActionsDescriptor) :
    DefaultDataDescriptor :=
  ⟨d.propertyName, d.default⟩

/-- `ActionsDescriptor.__set__`: runs the invariant checks on the incoming
value, then the transforms, then delegates storage of the final value to
`DefaultDataDescriptor.__set__`; an exception anywhere propagates and no
storage happens. -/
def ActionsDescriptor.set (d : ActionsDescriptor) (inst : Nat) (x : PyObj)
    (st : Store) : SetResult :=
  let rc := runImmutableActions d.immutableActions x
  match rc.2 with
  | .error e => ⟨rc.1, [], st, .error e⟩
  | .ok _ =>
    let ra := runActions d.actions x
    match ra.2 with
    | .error e => ⟨rc.1, ra.1, st, .error e⟩
    | .ok v => ⟨rc.1, ra.1, DefaultDataDescriptor.set d.toDefault inst v st, .ok ()⟩

/-- `__get__` is inherited from `DefaultDataDescriptor`; no pipeline runs
on read. -/
def ActionsDescriptor.get (d : ActionsDescriptor) (inst : Option Nat)
    (st : Store) : Except Err GetResult :=
  DefaultDataDescriptor.get d.toDefault inst st

/-- `SlottableActionsDescriptor`: identical pipeline, slottable storage. -/
structure SlottableActionsDescriptor : Type where
  propertyName : String
  default : Option PyObj
  immutableActions : List Check
  actions : List Action

def SlottableActionsDescriptor.toDefault (d : SlottableActionsDescriptor) :
    SlottableDefaultDataDescriptor :=
  ⟨d.propertyName, d.default⟩

/-- `SlottableActionsDescriptor.__set__`: checks, then transforms, then
delegates storage of the final value to the slottable `__set__` (which
builds a fresh `Reference` with weak reference `wr`). -/
def SlottableActionsDescriptor.set (d : SlottableActionsDescriptor)
    (inst : Nat) (wr : Nat) (x : PyObj) (tbl : Store) : SetResult :=
  let rc := runImmutableActions d.immutableActions x
  match rc.2 with
  | .error e => ⟨rc.1, [], tbl, .error e⟩
  | .ok _ =>
    let ra := runActions d.actions x
    match ra.2 with
    | .error e => ⟨rc.1, ra.1, tbl, .error e⟩
    | .ok v =>
        ⟨rc.1, ra.1,
         SlottableDefaultDataDescriptor.set d.toDefault inst wr v tbl, .ok ()⟩

/-- `__get__` is inherited from `SlottableDefaultDataDescriptor`. -/
def SlottableActionsDescriptor.get (d : SlottableActionsDescriptor)
    (inst : Option Nat) (tbl : Store) : Except Err GetResult :=
  SlottableDefaultDataDescriptor.get d.toDefault inst tbl

/-- `BaseNonDataDescriptor` (the base of `ReadOnly`): captures one value. -/
structure BaseNonDataDescriptor : Type where
  propertyName : String
  value : PyObj

/-- `BaseNonDataDescriptor.__get__`: `return self._value` — unconditional,
with no `instance is None` check, so the captured value is returned even
for access on the owning type. -/
def BaseNonDataDescriptor.get (d : BaseNonDataDescriptor)
    (_inst : Option Nat) : GetResult :=
  .value d.value

/-- `ReadOnly` adds only `__set__`. -/
abbrev ReadOnly := BaseNonDataDescriptor

/-- `ReadOnly.__set__`: always raises `AttributeError(
f"{instance}.{self._property_name}", "is read only.")`. -/
def ReadOnly.set (d : ReadOnly) (inst : Nat) (_v : PyObj) : Except Err Unit :=
  .error (.attributeError [instRepr inst ++ "." ++ d.propertyName, "is read only."])

/-- A value supplied to the `actions` / `immutable_actions` parameters or
property setters: `None`, a single (non-iterable) callable drawn from `A`,
or a generic iterable of such values. -/
inductive PyParam (A : Type) : Type where
  | pynone : PyParam A
  | callable : A → PyParam A
  | iterable : List (PyParam A) → PyParam A

/-- Python truthiness of a `PyParam`: `None` is falsy, a callable object is
truthy, a sized iterable is truthy exactly when nonempty. -/
def pyTruthy {A : Type} : PyParam A → Bool
  | .pynone => false
  | .callable _ => true
  | .iterable l => !l.isEmpty

/-- The `actions.setter` / `immutable_actions.setter` bodies (identical in
both Actions classes): `if not isinstance(value, typing.Iterable): value =
[value]`, then store — a non-iterable is wrapped into a one-element list,
an iterable is stored as-is. -/
def actionsSetterNormalize {A : Type} : PyParam A → List (PyParam A)
  | .iterable l => l
  | v => [v]

/-- The `__init__` assignment `self.actions = actions or ()` (same for
`immutable_actions`): a falsy argument — in particular the `None` default
of an omitted parameter — is replaced by the empty tuple before the setter
runs. -/
def actionsInitNormalize {A : Type} (p : PyParam A) : List (PyParam A) :=
  actionsSetterNormalize (if pyTruthy p then p else .iterable [])

/-- `Chain ts x v`: applying the transforms `ts` in order, threading each
output into the next input starting from `x`, succeeds with final value
`v`. -/
inductive Chain : List Action → PyObj → PyObj → Prop where
  | nil : ∀ x, Chain [] x x
  | cons : ∀ (t : Action) (ts : List Action) (x y z : PyObj),
      t x = .ok y → Chain ts y z → Chain (t :: ts) x z

theorem lookup_insert_self (st : Store) (k : Nat) (v : PyObj) :
    lookupStore (insertStore st k v) k = some v := by
  induction st with
  | nil => simp [insertStore, lookupStore]
  | cons p rest ih =>
    obtain ⟨k2, v2⟩ := p
    by_cases h : k2 = k
    · simp [insertStore, h, lookupStore]
    · simp [insertStore, h, lookupStore, ih]

theorem lookup_isSome_of_mem {st : Store} {k : Nat} {v : PyObj}
    (h : (k, v) ∈ st) : (lookupStore st k).isSome := by
  induction st with
  | nil => cases h
  | cons p rest ih =>
    obtain ⟨k2, v2⟩ := p
    rcases List.mem_cons.mp h with h1 | h1
    · obtain ⟨rfl, rfl⟩ := Prod.mk.injEq .. ▸ h1
      simp [lookupStore]
    · by_cases hk : k2 = k
      · simp [lookupStore, hk]
      · simpa [lookupStore, hk] using ih h1

theorem mem_eraseKey {st : Store} {k : Nat} {p : Nat × PyObj} :
    p ∈ eraseKey st k ↔ p ∈ st ∧ p.1 ≠ k := by
  simp [eraseKey, List.mem_filter]

theorem lookup_eraseKey_self (st : Store) (k : Nat) :
    lookupStore (eraseKey st k) k = none := by
  induction st with
  | nil => rfl
  | cons p rest ih =>
    obtain ⟨k2, v2⟩ := p
    by_cases h : k2 = k
    · simpa [eraseKey, List.filter_cons, h] using ih
    · simpa [eraseKey, List.filter_cons, h, lookupStore] using ih

theorem runIA_trace (cs : List Check) (x : PyObj) :
    (runImmutableActions cs x).1 =
      List.replicate (runImmutableActions cs x).1.length x := by
  induction cs with
  | nil => rfl
  | cons c cs ih =>
    cases hc : c x with
    | error e => simp [runImmutableActions, hc]
    | ok u =>
      simp only [runImmutableActions, hc, List.length_cons, List.replicate_succ]
      exact congrArg (x :: ·) ih

theorem runIA_ok (cs : List Check) (x : PyObj)
    (h : ∀ c ∈ cs, c x = .ok ()) :
    runImmutableActions cs x = (List.replicate cs.length x, .ok ()) := by
  induction cs with
  | nil => rfl
  | cons c cs ih =>
    have hc : c x = .ok () := h c (by simp)
    have ih2 := ih (fun c2 hc2 => h c2 (by simp [hc2]))
    simp [runImmutableActions, hc, ih2, List.replicate_succ]

theorem runIA_err (p : List Check) (c : Check) (s : List Check) (x : PyObj)
    (e : Err) (hp : ∀ c2 ∈ p, c2 x = .ok ()) (hc : c x = .error e) :
    runImmutableActions (p ++ c :: s) x =
      (List.replicate (p.length + 1) x, .error e) := by
  induction p with
  | nil => simp [runImmutableActions, hc]
  | cons c0 p ih =>
    have h0 : c0 x = .ok () := hp c0 (by simp)
    have ih2 := ih (fun c2 h2 => hp c2 (by simp [h2]))
    simp [runImmutableActions, h0, ih2, List.replicate_succ]

theorem runA_ok (ts : List Action) (x v : PyObj) (h : Chain ts x v) :
    (runActions ts x).2 = .ok v ∧ (runActions ts x).1.length = ts.length := by
  induction h with
  | nil x => simp [runActions]
  | cons t ts x y z ht hch ih =>
    simp only [runActions, ht]
    exact ⟨ih.1, by simp [ih.2]⟩

theorem runA_err (p : List Action) (t : Action) (s : List Action) (x w : PyObj)
    (e : Err) (hch : Chain p x w) (ht : t w = .error e) :
    (runActions (p ++ t :: s) x).2 = .error e ∧
      (runActions (p ++ t :: s) x).1.length = p.length + 1 := by
  induction hch with
  | nil x => simp [runActions, ht]
  | cons t0 ts x y z h0 hch ih =>
    have ih2 := ih ht
    simp only [List.cons_append, runActions, h0]
    exact ⟨ih2.1, by simp [ih2.2]⟩

/-- C5: for `BaseDataDescriptor` and `BaseSlottableDataDescriptor`, and for
the Default variants whose configured default is the sentinel, `get` on an
instance with no stored value raises an `AttributeError` whose payload is
`(f"{instance}.{name}", "has not been set with a value")` — it identifies
the offending instance and attribute name and states that the attribute has
not been set with a value — surfaced immediately to the caller. -/
theorem C5_unset_read_error (name : String) (i : Nat) (st tbl : Store)
    (hst : lookupStore st i = none)
    (htbl : lookupStore tbl (pyid (some i)) = none) :
    BaseDataDescriptor.get ⟨name⟩ (some i) st =
      .error (.attributeError [instRepr i ++ "." ++ name, unsetMsg]) ∧
    BaseSlottableDataDescriptor.get ⟨name⟩ (some i) tbl =
      .error (.attributeError [instRepr i ++ "." ++ name, unsetMsg]) ∧
    DefaultDataDescriptor.get ⟨name, none⟩ (some i) st =
      .error (.attributeError [instRepr i ++ "." ++ name, unsetMsg]) ∧
    SlottableDefaultDataDescriptor.get ⟨name, none⟩ (some i) tbl =
      .error (.attributeError [instRepr i ++ "." ++ name, unsetMsg]) := by
  simp [BaseDataDescriptor.get, BaseSlottableDataDescriptor.get,
        DefaultDataDescriptor.get, SlottableDefaultDataDescriptor.get,
        DefaultDataDescriptor.toBase, SlottableDefaultDataDescriptor.toBase,
        hst, htbl]

theorem C5_witness :
    BaseDataDescriptor.get ⟨"x"⟩ (some 0) [] =
      .error (.attributeError [instRepr 0 ++ "." ++ "x", unsetMsg]) ∧
    BaseSlottableDataDescriptor.get ⟨"x"⟩ (some 0) [] =
      .error (.attributeError [instRepr 0 ++ "." ++ "x", unsetMsg]) ∧
    DefaultDataDescriptor.get ⟨"x", none⟩ (some 0) [] =
      .error (.attributeError [instRepr 0 ++ "." ++ "x", unsetMsg]) ∧
    SlottableDefaultDataDescriptor.get ⟨"x", none⟩ (some 0) [] =
      .error (.attributeError [instRepr 0 ++ "." ++ "x", unsetMsg]) :=
  C5_unset_read_error "x" 0 [] [] rfl rfl

/-- C6: for `ReadOnly` constructed with value `V`, `get` returns the same
shared `V` for every instance (not per-instance), and `set` — regardless of
instance and offered value — raises an `AttributeError` naming the instance
and attribute and stating it is read only; the captured `V` is untouched, so
every subsequent read still returns `V`. -/
theorem C6_read_only (d : ReadOnly) (o1 o2 : Option Nat) (i : Nat) (v : PyObj) :
    BaseNonDataDescriptor.get d o1 = .value d.value ∧
    BaseNonDataDescriptor.get d o1 = BaseNonDataDescriptor.get d o2 ∧
    ReadOnly.set d i v =
      .error (.attributeError
        [instRepr i ++ "." ++ d.propertyName, "is read only."]) :=
  ⟨rfl, rfl, rfl⟩

/-- C7: for `BaseDataDescriptor` and `BaseSlottableDataDescriptor`,
`set(instance, v)` followed by `get(instance)` returns exactly `v` (no
validation or transformation), and a later `set(instance, w)` replaces the
stored entry wholesale — `get` then returns `w`, and in the slottable table
the entry for the instance is the entire new `Reference`. -/
theorem C7_set_get_roundtrip (bd : BaseDataDescriptor)
    (bs : BaseSlottableDataDescriptor) (i wr1 wr2 : Nat) (v w : PyObj)
    (st tbl : Store) :
    BaseDataDescriptor.get bd (some i) (BaseDataDescriptor.set bd i v st) =
      .ok (.value v) ∧
    BaseDataDescriptor.get bd (some i)
      (BaseDataDescriptor.set bd i w (BaseDataDescriptor.set bd i v st)) =
      .ok (.value w) ∧
    BaseSlottableDataDescriptor.get bs (some i)
      (BaseSlottableDataDescriptor.set bs i wr1 v tbl) = .ok (.value v) ∧
    BaseSlottableDataDescriptor.get bs (some i)
      (BaseSlottableDataDescriptor.set bs i wr2 w
        (BaseSlottableDataDescriptor.set bs i wr1 v tbl)) = .ok (.value w) ∧
    lookupStore (BaseSlottableDataDescriptor.set bs i wr2 w
        (BaseSlottableDataDescriptor.set bs i wr1 v tbl)) (pyid (some i)) =
      some (.ref wr2 w) := by
  simp [BaseDataDescriptor.get, BaseDataDescriptor.set,
        BaseSlottableDataDescriptor.get, BaseSlottableDataDescriptor.set,
        lookup_insert_self, refValueAttr]

theorem actionsSet_checkCalls (d : ActionsDescriptor) (i : Nat) (x : PyObj)
    (st : Store) :
    (d.set i x st).checkCalls = (runImmutableActions d.immutableActions x).1 := by
  cases hrc : (runImmutableActions d.immutableActions x).2 with
  | error e => simp [ActionsDescriptor.set, hrc]
  | ok u =>
    cases hra : (runActions d.actions x).2 with
    | error e => simp [ActionsDescriptor.set, hrc, hra]
    | ok v => simp [ActionsDescriptor.set, hrc, hra]

theorem slottableActionsSet_checkCalls (d : SlottableActionsDescriptor)
    (i wr : Nat) (x : PyObj) (tbl : Store) :
    (d.set i wr x tbl).checkCalls =
      (runImmutableActions d.immutableActions x).1 := by
  cases hrc : (runImmutableActions d.immutableActions x).2 with
  | error e => simp [SlottableActionsDescriptor.set, hrc]
  | ok u =>
    cases hra : (runActions d.actions x).2 with
    | error e => simp [SlottableActionsDescriptor.set, hrc, hra]
    | ok v => simp [SlottableActionsDescriptor.set, hrc, hra]

/-- C1: for both Actions descriptors, `set(instance, X)` (1) passes the
original `X` to every invariant-check call — the trace of check arguments
is a constant-`X` list; (2) when every check passes and the transforms
chain `X` to `v` (each transform consuming the previous transform's
output, the first receiving `X`), all checks and all transforms run and
`v` is stored (wrapped in a fresh `Reference` for the slottable variant);
(3) when a check raises, the same exception propagates, only the checks up
to and including the failing one ran, no transform ran, and storage is
unchanged; (4) when a transform raises, the same exception propagates,
only the transforms up to and including the failing one ran, and storage
is unchanged, so a subsequent `get` behaves as if the `set` never
happened. -/
theorem C1_actions_pipeline (d : ActionsDescriptor)
    (ds : SlottableActionsDescriptor) (i wr : Nat) (x : PyObj)
    (st tbl : Store) :
    ((d.set i x st).checkCalls =
        List.replicate (d.set i x st).checkCalls.length x) ∧
    ((ds.set i wr x tbl).checkCalls =
        List.replicate (ds.set i wr x tbl).checkCalls.length x) ∧
    (∀ v, (∀ c ∈ d.immutableActions, c x = .ok ()) → Chain d.actions x v →
        (d.set i x st).checkCalls =
            List.replicate d.immutableActions.length x ∧
        (d.set i x st).transformCalls.length = d.actions.length ∧
        (d.set i x st).store = insertStore st i v ∧
        (d.set i x st).result = .ok ()) ∧
    (∀ v, (∀ c ∈ ds.immutableActions, c x = .ok ()) → Chain ds.actions x v →
        (ds.set i wr x tbl).checkCalls =
            List.replicate ds.immutableActions.length x ∧
        (ds.set i wr x tbl).transformCalls.length = ds.actions.length ∧
        (ds.set i wr x tbl).store =
            insertStore tbl (pyid (some i)) (.ref wr v) ∧
        (ds.set i wr x tbl).result = .ok ()) ∧
    (∀ p c s e, d.immutableActions = p ++ c :: s →
        (∀ c2 ∈ p, c2 x = .ok ()) → c x = .error e →
        d.set i x st = ⟨List.replicate (p.length + 1) x, [], st, .error e⟩) ∧
    (∀ p c s e, ds.immutableActions = p ++ c :: s →
        (∀ c2 ∈ p, c2 x = .ok ()) → c x = .error e →
        ds.set i wr x tbl =
          ⟨List.replicate (p.length + 1) x, [], tbl, .error e⟩) ∧
    (∀ p t s e w, d.actions = p ++ t :: s →
        (∀ c ∈ d.immutableActions, c x = .ok ()) → Chain p x w →
        t w = .error e →
        (d.set i x st).store = st ∧ (d.set i x st).result = .error e ∧
        (d.set i x st).transformCalls.length = p.length + 1) ∧
    (∀ p t s e w, ds.actions = p ++ t :: s →
        (∀ c ∈ ds.immutableActions, c x = .ok ()) → Chain p x w →
        t w = .error e →
        (ds.set i wr x tbl).store = tbl ∧
        (ds.set i wr x tbl).result = .error e ∧
        (ds.set i wr x tbl).transformCalls.length = p.length + 1) := by
  refine ⟨?_, ?_, ?_, ?_, ?_, ?_, ?_, ?_⟩
  · rw [actionsSet_checkCalls]
    exact runIA_trace d.immutableActions x
  · rw [slottableActionsSet_checkCalls]
    exact runIA_trace ds.immutableActions x
  · intro v hchecks hchain
    have h1 := runIA_ok d.immutableActions x hchecks
    have h2 := runA_ok d.actions x v hchain
    simp [ActionsDescriptor.set, h1, h2.1, h2.2, DefaultDataDescriptor.set,
          BaseDataDescriptor.set, ActionsDescriptor.toDefault,
          DefaultDataDescriptor.toBase]
  · intro v hchecks hchain
    have h1 := runIA_ok ds.immutableActions x hchecks
    have h2 := runA_ok ds.actions x v hchain
    simp [SlottableActionsDescriptor.set, h1, h2.1, h2.2,
          SlottableDefaultDataDescriptor.set, BaseSlottableDataDescriptor.set,
          SlottableActionsDescriptor.toDefault,
          SlottableDefaultDataDescriptor.toBase]
  · intro p c s e hsplit hp hc
    have h1 := runIA_err p c s x e hp hc
    simp [ActionsDescriptor.set, hsplit, h1]
  · intro p c s e hsplit hp hc
    have h1 := runIA_err p c s x e hp hc
    simp [SlottableActionsDescriptor.set, hsplit, h1]
  · intro p t s e w hsplit hchecks hchain ht
    have h1 := runIA_ok d.immutableActions x hchecks
    have h2 := runA_err p t s x w e hchain ht
    rw [← hsplit] at h2
    simp [ActionsDescriptor.set, h1, h2.1, h2.2]
  · intro p t s e w hsplit hchecks hchain ht
    have h1 := runIA_ok ds.immutableActions x hchecks
    have h2 := runA_err p t s x w e hchain ht
    rw [← hsplit] at h2
    simp [SlottableActionsDescriptor.set, h1, h2.1, h2.2]

theorem C1_witness :
    (ActionsDescriptor.set
        ⟨"x", none, [fun y => if y = PyObj.base 0 then .ok () else .error (.user 1)],
         [fun _ => .ok (PyObj.base 7)]⟩ 0 (PyObj.base 0) []).store =
      [(0, PyObj.base 7)] ∧
    (ActionsDescriptor.set
        ⟨"x", none, [fun y => if y = PyObj.base 0 then .ok () else .error (.user 1)],
         [fun _ => .ok (PyObj.base 7)]⟩ 0 (PyObj.base 0) []).result = .ok () ∧
    SlottableActionsDescriptor.set
        ⟨"x", none, [fun _ => .error (.user 9)], [fun _ => .ok (PyObj.base 7)]⟩
        0 5 (PyObj.base 0) [] =
      ⟨[PyObj.base 0], [], [], .error (.user 9)⟩ := by
  have h := C1_actions_pipeline
    ⟨"x", none, [fun y => if y = PyObj.base 0 then .ok () else .error (.user 1)],
     [fun _ => .ok (PyObj.base 7)]⟩
    ⟨"x", none, [fun _ => .error (.user 9)], [fun _ => .ok (PyObj.base 7)]⟩
    0 5 (PyObj.base 0) [] []
  have hs := h.2.2.1 (PyObj.base 7)
    (by intro c hc; rw [List.mem_singleton] at hc; subst hc; rfl)
    (Chain.cons _ _ _ _ _ rfl (Chain.nil _))
  have hf := h.2.2.2.2.2.1 [] (fun _ => .error (.user 9)) [] (.user 9) rfl
    (by intro c2 hc2; cases hc2) rfl
  exact ⟨hs.2.2.1, hs.2.2.2, hf⟩

theorem ref_ne : ∀ (v : PyObj) (w : Nat), PyObj.ref w v ≠ v := by
  intro v
  induction v with
  | pynone => intro w h; exact PyObj.noConfusion h
  | base n => intro w h; exact PyObj.noConfusion h
  | ref w2 v2 ih =>
    intro w h
    injection h with h1 h2
    exact ih w2 h2

/-- C2 counterexample: the claim fails at `ReadOnly` — accessed on the
owning type (`instance` absent), its `__get__` returns the captured value
(`return self._value`, with no `instance is None` check), not the
interceptor object itself. -/
theorem C2_counterexample :
    BaseNonDataDescriptor.get ⟨"x", PyObj.base 0⟩ none =
      GetResult.value (PyObj.base 0) ∧
    GetResult.value (PyObj.base 0) ≠ GetResult.itself := by
  exact ⟨rfl, by simp⟩

/-- C2 amended: `get` with `instance` absent returns the interceptor
itself for `BaseDataDescriptor`, `BaseSlottableDataDescriptor`, and the
Default and Actions variants whose configured default is the sentinel.
The remaining exports behave differently: `ReadOnly` returns its captured
value; `DefaultDataDescriptor` and `ActionsDescriptor` with a configured
default raise an `AttributeError` (the unguarded branch evaluates
`None.__dict__`); `SlottableDefaultDataDescriptor` and
`SlottableActionsDescriptor` with a configured default return the default
value. -/
theorem C2_class_access (b : BaseDataDescriptor)
    (bs : BaseSlottableDataDescriptor) (name : String) (D : PyObj)
    (st tbl : Store) (cs : List Check) (ts : List Action) :
    BaseDataDescriptor.get b none st = .ok .itself ∧
    BaseSlottableDataDescriptor.get bs none tbl = .ok .itself ∧
    DefaultDataDescriptor.get ⟨name, none⟩ none st = .ok .itself ∧
    SlottableDefaultDataDescriptor.get ⟨name, none⟩ none tbl = .ok .itself ∧
    ActionsDescriptor.get ⟨name, none, cs, ts⟩ none st = .ok .itself ∧
    SlottableActionsDescriptor.get ⟨name, none, cs, ts⟩ none tbl =
      .ok .itself ∧
    (∀ ro : ReadOnly, BaseNonDataDescriptor.get ro none = .value ro.value) ∧
    DefaultDataDescriptor.get ⟨name, some D⟩ none st =
      .error (.attributeError ["NoneType object has no attribute __dict__"]) ∧
    (lookupStore tbl (pyid none) = none → isRefObj D = false →
      SlottableDefaultDataDescriptor.get ⟨name, some D⟩ none tbl =
        .ok (.value D)) := by
  refine ⟨rfl, rfl, rfl, rfl, rfl, rfl, fun ro => rfl, rfl, ?_⟩
  intro h1 h2
  cases D <;> simp_all [SlottableDefaultDataDescriptor.get, isRefObj]

theorem C2_witness :
    SlottableDefaultDataDescriptor.get ⟨"x", some PyObj.pynone⟩ none [] =
      .ok (.value PyObj.pynone) ∧
    BaseDataDescriptor.get ⟨"x"⟩ none [] = .ok .itself := by
  have h := C2_class_access ⟨"x"⟩ ⟨"x"⟩ "x" PyObj.pynone [] [] [] []
  exact ⟨h.2.2.2.2.2.2.2.2 rfl rfl, h.1⟩

/-- C3 counterexample: the claim fails when the configured non-sentinel
default is itself a `Reference` named tuple — an unset read on
`SlottableDefaultDataDescriptor` then returns the default's `value`
field, not the configured default object `D`. -/
theorem C3_counterexample :
    lookupStore [] (pyid (some 3)) = none ∧
    SlottableDefaultDataDescriptor.get
        ⟨"x", some (PyObj.ref 0 (PyObj.base 5))⟩ (some 3) [] =
      .ok (.value (PyObj.base 5)) ∧
    SlottableDefaultDataDescriptor.get
        ⟨"x", some (PyObj.ref 0 (PyObj.base 5))⟩ (some 3) [] ≠
      .ok (.value (PyObj.ref 0 (PyObj.base 5))) := by
  refine ⟨rfl, rfl, fun h => ?_⟩
  have h2 := Except.ok.inj h
  injection h2 with h3
  exact ref_ne (PyObj.base 5) 0 h3.symm

/-- C3 amended: with a configured default `D` that is not the sentinel
(including `D = None`), an unset read returns `D` without writing it to
storage (the embedded `get` functions read but never produce a store) —
except that the Slottable variants return `D`'s `value` field instead of
`D` when `D` is itself a `Reference` named tuple, so for them the claim
holds under the proviso that `D` is not a `Reference`. -/
theorem C3_default_read (name : String) (D : PyObj) (i : Nat)
    (st tbl : Store) (cs : List Check) (ts : List Action)
    (hst : lookupStore st i = none)
    (htbl : lookupStore tbl (pyid (some i)) = none) :
    DefaultDataDescriptor.get ⟨name, some D⟩ (some i) st = .ok (.value D) ∧
    ActionsDescriptor.get ⟨name, some D, cs, ts⟩ (some i) st =
      .ok (.value D) ∧
    (isRefObj D = false →
      SlottableDefaultDataDescriptor.get ⟨name, some D⟩ (some i) tbl =
        .ok (.value D) ∧
      SlottableActionsDescriptor.get ⟨name, some D, cs, ts⟩ (some i) tbl =
        .ok (.value D)) := by
  refine ⟨?_, ?_, ?_⟩
  · simp [DefaultDataDescriptor.get, hst]
  · simp [ActionsDescriptor.get, ActionsDescriptor.toDefault,
          DefaultDataDescriptor.get, hst]
  · intro hD
    constructor <;>
      cases D <;>
        simp_all [SlottableDefaultDataDescriptor.get,
                  SlottableActionsDescriptor.get,
                  SlottableActionsDescriptor.toDefault, isRefObj]

theorem C3_witness :
    DefaultDataDescriptor.get ⟨"x", some PyObj.pynone⟩ (some 0) [] =
      .ok (.value PyObj.pynone) ∧
    SlottableDefaultDataDescriptor.get ⟨"x", some PyObj.pynone⟩ (some 0) [] =
      .ok (.value PyObj.pynone) := by
  have h := C3_default_read "x" PyObj.pynone 0 [] [] [] [] rfl rfl
  exact ⟨h.1, (h.2.2 rfl).1⟩

/-- C8: pipeline-configuration normalization, identical for
`ActionsDescriptor` and `SlottableActionsDescriptor` and for the
`actions` and `immutable_actions` properties. The property setter wraps a
value that is not a generic iterable (a single callable — or `None` on
direct assignment) into a one-element sequence and keeps an iterable
as-is; construction (`actions or ()`) turns an omitted or `None`
parameter into the empty sequence of stages. -/
theorem C8_normalization (A : Type) (a : A) (l : List (PyParam A)) :
    actionsSetterNormalize (PyParam.callable a) = [PyParam.callable a] ∧
    actionsSetterNormalize (PyParam.pynone : PyParam A) = [PyParam.pynone] ∧
    actionsSetterNormalize (PyParam.iterable l) = l ∧
    actionsInitNormalize (PyParam.pynone : PyParam A) = [] ∧
    actionsInitNormalize (PyParam.callable a) = [PyParam.callable a] ∧
    actionsInitNormalize (PyParam.iterable l) = l := by
  refine ⟨rfl, rfl, rfl, rfl, rfl, ?_⟩
  cases l with
  | nil => rfl
  | cons x xs => rfl

/-- C9: for `SlottableDefaultDataDescriptor` whose configured non-sentinel
default is itself a `Reference` named tuple, an unset `get` returns the
default's `value` field rather than the configured default object itself,
because the lookup result is discriminated by `isinstance(_, Reference)`. -/
theorem C9_reference_default (name : String) (w : Nat) (dv : PyObj) (i : Nat)
    (tbl : Store) (htbl : lookupStore tbl (pyid (some i)) = none) :
    SlottableDefaultDataDescriptor.get
        ⟨name, some (PyObj.ref w dv)⟩ (some i) tbl = .ok (.value dv) ∧
    GetResult.value dv ≠ GetResult.value (PyObj.ref w dv) := by
  constructor
  · simp [SlottableDefaultDataDescriptor.get, htbl]
  · intro h
    injection h with h2
    exact ref_ne dv w h2.symm

theorem C9_witness :
    SlottableDefaultDataDescriptor.get
        ⟨"x", some (PyObj.ref 4 (PyObj.base 9))⟩ (some 1) [] =
      .ok (.value (PyObj.base 9)) :=
  (C9_reference_default "x" 4 (PyObj.base 9) 1 [] rfl).1

instance {ε α : Type} [DecidableEq ε] [DecidableEq α] :
    DecidableEq (Except ε α) := fun x y =>
  match x, y with
  | .error a, .error b =>
    if h : a = b then .isTrue (by rw [h])
    else .isFalse (fun hh => h (Except.error.inj hh))
  | .ok a, .ok b =>
    if h : a = b then .isTrue (by rw [h])
    else .isFalse (fun hh => h (Except.ok.inj hh))
  | .error _, .ok _ => .isFalse (fun hh => Except.noConfusion hh)
  | .ok _, .error _ => .isFalse (fun hh => Except.noConfusion hh)

theorem find_total (tbl : Store) (wr : Nat)
    (href : ∀ p ∈ tbl, isRefObj p.2 = true) :
    ∃ o, findWeakRefKey tbl wr = .ok o := by
  induction tbl with
  | nil => exact ⟨none, rfl⟩
  | cons p rest ih =>
    obtain ⟨k2, r2⟩ := p
    have h2 : isRefObj r2 = true := href (k2, r2) (by simp)
    cases r2 with
    | pynone => simp [isRefObj] at h2
    | base n => simp [isRefObj] at h2
    | ref w2 v2 =>
      by_cases hw : w2 = wr
      · exact ⟨some k2, by simp [findWeakRefKey, refRefAttr, hw]⟩
      · obtain ⟨o, ho⟩ := ih (fun p hp => href p (by simp [hp]))
        exact ⟨o, by simp [findWeakRefKey, refRefAttr, hw, ho]⟩

theorem find_some_mem (tbl : Store) (wr k : Nat)
    (h : findWeakRefKey tbl wr = .ok (some k)) :
    ∃ r, (k, r) ∈ tbl := by
  induction tbl with
  | nil => simp [findWeakRefKey] at h
  | cons p rest ih =>
    obtain ⟨k2, r2⟩ := p
    cases hr : refRefAttr r2 with
    | error e => simp [findWeakRefKey, hr] at h
    | ok w =>
      by_cases hw : w = wr
      · simp [findWeakRefKey, hr, hw] at h
        exact ⟨r2, by simp [h]⟩
      · simp [findWeakRefKey, hr, hw] at h
        obtain ⟨r, hrm⟩ := ih h
        exact ⟨r, by simp [hrm]⟩

theorem find_first (tbl : Store) (wr k : Nat) (wv : PyObj)
    (href : ∀ p ∈ tbl, isRefObj p.2 = true)
    (hmem : (k, PyObj.ref wr wv) ∈ tbl)
    (huniq : ∀ p ∈ tbl, refRefAttr p.2 = .ok wr → p = (k, PyObj.ref wr wv)) :
    findWeakRefKey tbl wr = .ok (some k) := by
  induction tbl with
  | nil => cases hmem
  | cons p rest ih =>
    obtain ⟨k2, r2⟩ := p
    have h2 : isRefObj r2 = true := href (k2, r2) (by simp)
    cases r2 with
    | pynone => simp [isRefObj] at h2
    | base n => simp [isRefObj] at h2
    | ref w2 v2 =>
      by_cases hw : w2 = wr
      · have heq := huniq (k2, .ref w2 v2) (by simp) (by simp [refRefAttr, hw])
        have hk2 : k2 = k := by injection heq with ha hb
        simp [findWeakRefKey, refRefAttr, hw, hk2]
      · have hmem2 : (k, PyObj.ref wr wv) ∈ rest := by
          rcases List.mem_cons.mp hmem with h1 | h1
          · exfalso
            injection h1 with ha hb
            injection hb with hc hd
            exact hw hc.symm
          · exact h1
        simp only [findWeakRefKey, refRefAttr, hw, if_false, if_neg hw]
        exact ih (fun p hp => href p (by simp [hp])) hmem2
          (fun p hp h3 => huniq p (by simp [hp]) h3)

/-- C4: the slottable table maps instance identity to an entry pairing a
weak reference with the stored value (`set` stores `Reference(wr, v)` at
key `id(instance)`), and the reclamation callback `_delete_reference`
scans the table for the entry whose weak reference is the reclaimed one
and removes it: afterwards no entry carrying that weak reference — and no
entry under that instance-identity key — survives. Hypotheses reflect the
runtime: every entry is a `Reference` (only `__set__` writes entries), the
reclaimed weak reference belongs to exactly one entry (weak references are
compared by object identity), and the key is nonzero (CPython ids are
nonzero addresses). -/
theorem C4_reclamation (bs : BaseSlottableDataDescriptor) (i wr0 : Nat)
    (v : PyObj) (tbl0 tbl : Store) (k wr : Nat) (wv : PyObj)
    (href : ∀ p ∈ tbl, isRefObj p.2 = true)
    (hmem : (k, PyObj.ref wr wv) ∈ tbl)
    (hk : k ≠ 0)
    (huniq : ∀ p ∈ tbl, refRefAttr p.2 = .ok wr → p = (k, PyObj.ref wr wv)) :
    lookupStore (BaseSlottableDataDescriptor.set bs i wr0 v tbl0)
        (pyid (some i)) = some (.ref wr0 v) ∧
    deleteReference tbl wr = .ok (eraseKey tbl k) ∧
    (∀ p ∈ eraseKey tbl k, refRefAttr p.2 ≠ .ok wr) ∧
    lookupStore (eraseKey tbl k) k = none := by
  refine ⟨?_, ?_, ?_, ?_⟩
  · simp [BaseSlottableDataDescriptor.set, lookup_insert_self]
  · have hfind := find_first tbl wr k wv href hmem huniq
    have hc := lookup_isSome_of_mem hmem
    simp [deleteReference, hfind, hk, delItem, containsKey, hc]
  · intro p hp hr
    obtain ⟨hmem2, hne⟩ := mem_eraseKey.mp hp
    have heq := huniq p hmem2 hr
    rw [heq] at hne
    exact hne rfl
  · exact lookup_eraseKey_self tbl k

theorem C4_witness :
    lookupStore (BaseSlottableDataDescriptor.set ⟨"x"⟩ 0 7 (PyObj.base 3) [])
        (pyid (some 0)) = some (PyObj.ref 7 (PyObj.base 3)) ∧
    deleteReference
        [(1, PyObj.ref 5 (PyObj.base 9)), (2, PyObj.ref 6 (PyObj.base 4))] 5 =
      .ok [(2, PyObj.ref 6 (PyObj.base 4))] := by
  have h := C4_reclamation ⟨"x"⟩ 0 7 (PyObj.base 3) []
    [(1, PyObj.ref 5 (PyObj.base 9)), (2, PyObj.ref 6 (PyObj.base 4))]
    1 5 (PyObj.base 9) (by decide) (by decide) (by decide) (by decide)
  exact ⟨h.1, h.2.1⟩

/-- C10: the reclamation callback is total on tables whose entries are all
`Reference`s (the only entries `__set__` ever writes): when the key search
finds no entry whose weak reference matches, or when the matching key is
falsy (`0`), the table is left unchanged and no error is raised; and in
every case the callback returns normally — it never attempts to delete an
absent key, so no `KeyError` can escape. -/
theorem C10_callback_total (tbl : Store) (wr : Nat)
    (href : ∀ p ∈ tbl, isRefObj p.2 = true) :
    (findWeakRefKey tbl wr = .ok none → deleteReference tbl wr = .ok tbl) ∧
    (findWeakRefKey tbl wr = .ok (some 0) →
      deleteReference tbl wr = .ok tbl) ∧
    (∃ t2, deleteReference tbl wr = .ok t2) := by
  refine ⟨?_, ?_, ?_⟩
  · intro h; simp [deleteReference, h]
  · intro h; simp [deleteReference, h]
  · rcases find_total tbl wr href with ⟨o, ho⟩
    cases o with
    | none => exact ⟨tbl, by simp [deleteReference, ho]⟩
    | some k =>
      by_cases hk : k = 0
      · exact ⟨tbl, by simp [deleteReference, ho, hk]⟩
      · obtain ⟨r, hr⟩ := find_some_mem tbl wr k ho
        have hc := lookup_isSome_of_mem hr
        exact ⟨eraseKey tbl k,
          by simp [deleteReference, ho, hk, delItem, containsKey, hc]⟩

theorem C10_witness :
    deleteReference [(0, PyObj.ref 3 PyObj.pynone)] 3 =
      .ok [(0, PyObj.ref 3 PyObj.pynone)] ∧
    deleteReference [(0, PyObj.ref 3 PyObj.pynone)] 9 =
      .ok [(0, PyObj.ref 3 PyObj.pynone)] := by
  have h1 := C10_callback_total [(0, PyObj.ref 3 PyObj.pynone)] 3 (by decide)
  have h2 := C10_callback_total [(0, PyObj.ref 3 PyObj.pynone)] 9 (by decide)
  exact ⟨h1.2.1 rfl, h2.1 rfl⟩

end Descriptify
